import Mathlib

/-!
# Verification of the MCP deployment manager core

Shallow embedding of the security scanner scoring, the global policy gate,
the registry validation rules, and the backup / deploy / remove / restore
operations of the `mcp-deployment-manager` repository.

* `calculateSecurityScore`, `scanAggregate` follow
  `src/services/securityService.ts` (`SecurityService.calculateSecurityScore`
  and the aggregation in `SecurityService.scanMCPService`).
* `evaluateSecurityResult` follows the compiled
  `dist/services/globalSecurityManager.js`
  (`GlobalSecurityManager.evaluateSecurityResult`).
* The validation predicates (`containsDangerousContent`, `isDockerParameter`,
  `isLegitimateRelativePath`, `validateServerConfig`, …) follow
  `src/services/configService.ts`; the JavaScript regular expressions are
  implemented as executable character-list matchers with the same semantics.
* The stateful operations (`createBackup`, `addServer`,
  `addServerWithProtection`, `removeServer`, `restoreFromBackup`) follow
  `src/services/configService.ts`, with the filesystem modelled as an
  explicit state: the registry file is `Option Registry` (present/absent),
  the backup directory is a newest-first list of `BackupFile`s, and a
  logical clock supplies strictly increasing timestamps.  `faultBackup`
  injects an I/O failure into the backup copy, modelling the only
  non-modelled way `createBackup` can throw.
-/

/-! ## Security scanner data model (`securityService.ts`) -/

/-- Result of `SecurityService.analyzeCode`. -/
structure CodeAnalysisResult where
  passed : Bool
  dangerousFunctions : List String
  suspiciousPatterns : List String
  maliciousCommands : List String
deriving DecidableEq, Repr

/-- Result of `SecurityService.checkDependencies`. -/
structure DependencyCheckResult where
  passed : Bool
  hasPackageJson : Bool
  hasRequirementsTxt : Bool
  vulnerableDependencies : List String
  unspecifiedVersions : List String
deriving DecidableEq, Repr

/-- Result of `SecurityService.checkConfiguration`. -/
structure ConfigurationCheckResult where
  passed : Bool
  hardcodedSecrets : List String
  insecureConfigs : List String
deriving DecidableEq, Repr

/-- Result of `SecurityService.checkPermissions`. -/
structure PermissionCheckResult where
  passed : Bool
  fileExists : Bool
  isExecutable : Bool
  isInSecurePath : Bool
  pathTraversalRisk : Bool
deriving DecidableEq, Repr

/-- `passed` computation of `SecurityService.analyzeCode`:
`dangerousFunctions.length === 0 && maliciousCommands.length === 0`. -/
def mkCodeAnalysis (dangerousFunctions suspiciousPatterns maliciousCommands : List String) :
    CodeAnalysisResult :=
  { passed := dangerousFunctions.isEmpty && maliciousCommands.isEmpty
    dangerousFunctions := dangerousFunctions
    suspiciousPatterns := suspiciousPatterns
    maliciousCommands := maliciousCommands }

/-- `passed` computation of `SecurityService.checkDependencies`:
`vulnerableDependencies.length === 0 && unspecifiedVersions.length === 0`. -/
def mkDependencyCheck (hasPackageJson hasRequirementsTxt : Bool)
    (vulnerableDependencies unspecifiedVersions : List String) : DependencyCheckResult :=
  { passed := vulnerableDependencies.isEmpty && unspecifiedVersions.isEmpty
    hasPackageJson := hasPackageJson
    hasRequirementsTxt := hasRequirementsTxt
    vulnerableDependencies := vulnerableDependencies
    unspecifiedVersions := unspecifiedVersions }

/-- `passed` computation of `SecurityService.checkConfiguration`:
`hardcodedSecrets.length === 0 && insecureConfigs.length === 0`. -/
def mkConfigurationCheck (hardcodedSecrets insecureConfigs : List String) :
    ConfigurationCheckResult :=
  { passed := hardcodedSecrets.isEmpty && insecureConfigs.isEmpty
    hardcodedSecrets := hardcodedSecrets
    insecureConfigs := insecureConfigs }

/-- `passed` computation of `SecurityService.checkPermissions`:
`fileExists && !pathTraversalRisk`. -/
def mkPermissionCheck (fileExists isExecutable isInSecurePath pathTraversalRisk : Bool) :
    PermissionCheckResult :=
  { passed := fileExists && !pathTraversalRisk
    fileExists := fileExists
    isExecutable := isExecutable
    isInSecurePath := isInSecurePath
    pathTraversalRisk := pathTraversalRisk }

/-- `SecurityService.calculateSecurityScore` from `src/services/securityService.ts`
(TypeScript source, lines 766-812).  All arithmetic is on JavaScript numbers
that stay integral here (`Math.floor` on a non-negative quotient is `Nat`
division, `Math.round` is the identity), so the score is an `Int`. -/
def calculateSecurityScore (codeAnalysis : CodeAnalysisResult)
    (dependencyCheck : DependencyCheckResult) (configurationCheck : ConfigurationCheckResult)
    (permissionCheck : PermissionCheckResult) : Int :=
  let score : Int := 100
  let score : Int :=
    if !codeAnalysis.passed then
      score - min 40 ((codeAnalysis.dangerousFunctions.length : Int) * 10 +
        (codeAnalysis.maliciousCommands.length : Int) * 15)
    else score
  let score : Int :=
    if !dependencyCheck.passed then
      let score := score - min 20 ((dependencyCheck.vulnerableDependencies.length : Int) * 10)
      let versionPenalty : Int :=
        min 15 (((dependencyCheck.unspecifiedVersions.length / 3 : Nat) : Int) * 5)
      let score := score - versionPenalty
      if dependencyCheck.vulnerableDependencies.length = 0 ∧
          0 < dependencyCheck.unspecifiedVersions.length then
        score + min 5 ((dependencyCheck.unspecifiedVersions.length / 5 : Nat) : Int)
      else score
    else score
  let score : Int :=
    if !configurationCheck.passed then
      score - min 20 ((configurationCheck.hardcodedSecrets.length : Int) * 15 +
        (configurationCheck.insecureConfigs.length : Int) * 5)
    else score
  let score : Int :=
    if !permissionCheck.passed then
      if !permissionCheck.fileExists then score - 10
      else
        score - min 10 ((if !permissionCheck.isInSecurePath then (5 : Int) else 0) +
          (if permissionCheck.pathTraversalRisk then (5 : Int) else 0))
    else score
  max 0 (min 100 score)

/-- The four category results bundled as `details` of a scan. -/
structure ScanDetails where
  codeAnalysis : CodeAnalysisResult
  dependencyCheck : DependencyCheckResult
  configurationCheck : ConfigurationCheckResult
  permissionCheck : PermissionCheckResult
deriving DecidableEq, Repr

/-- `SecurityScanResult` of `securityService.ts`. -/
structure ScanResult where
  passed : Bool
  score : Int
  warnings : List String
  errors : List String
  details : ScanDetails
deriving DecidableEq, Repr

/-- The aggregation performed by `SecurityService.scanMCPService` after the
four category checks have run (the checks themselves do filesystem I/O and
are taken as inputs): overall `passed` is the conjunction of the category
`passed` flags, the score comes from `calculateSecurityScore`, and the
error/warning messages are assembled exactly as in the source. -/
def scanAggregate (codeAnalysis : CodeAnalysisResult) (dependencyCheck : DependencyCheckResult)
    (configurationCheck : ConfigurationCheckResult) (permissionCheck : PermissionCheckResult) :
    ScanResult :=
  let passed := codeAnalysis.passed && dependencyCheck.passed &&
    configurationCheck.passed && permissionCheck.passed
  let score := calculateSecurityScore codeAnalysis dependencyCheck
    configurationCheck permissionCheck
  let errors : List String :=
    (if !codeAnalysis.passed then
      [("代码安全检查失败")] ++
      (if !codeAnalysis.dangerousFunctions.isEmpty then
        [("发现危险函数: ") ++ String.intercalate (", ") codeAnalysis.dangerousFunctions]
      else []) ++
      (if !codeAnalysis.maliciousCommands.isEmpty then
        [("发现恶意命令: ") ++ String.intercalate (", ") codeAnalysis.maliciousCommands]
      else [])
    else []) ++
    (if !dependencyCheck.passed then
      (if !dependencyCheck.vulnerableDependencies.isEmpty then
        [("发现有漏洞的依赖: ") ++ String.intercalate (", ") dependencyCheck.vulnerableDependencies]
      else [])
    else []) ++
    (if !configurationCheck.passed then
      (if !configurationCheck.hardcodedSecrets.isEmpty then [("发现硬编码的敏感信息")] else [])
    else []) ++
    (if !permissionCheck.passed then
      (if !permissionCheck.fileExists then [("服务器文件不存在")] else []) ++
      (if permissionCheck.pathTraversalRisk then [("检测到路径遍历风险")] else [])
    else [])
  let warnings : List String :=
    (if !dependencyCheck.passed then
      (if !dependencyCheck.unspecifiedVersions.isEmpty then
        [("依赖版本未固定: ") ++ String.intercalate (", ") dependencyCheck.unspecifiedVersions]
      else [])
    else []) ++
    (if !permissionCheck.passed then
      (if !permissionCheck.isInSecurePath then [("服务器文件不在安全路径中")] else [])
    else [])
  { passed := passed
    score := score
    warnings := warnings
    errors := errors
    details :=
      { codeAnalysis := codeAnalysis
        dependencyCheck := dependencyCheck
        configurationCheck := configurationCheck
        permissionCheck := permissionCheck } }

/-! ## Global policy gate (`globalSecurityManager.js`) -/

/-- `GlobalSecurityPolicy` (the fields consumed by the gate; `policyVersion`
and `lastUpdated` are metadata the gate never reads). -/
structure GlobalPolicy where
  enforced : Bool
  minimumScore : Int
  strictMode : Bool
  allowedBypass : Bool
deriving DecidableEq, Repr

/-- Accept/reject verdict of the gate. -/
structure GateResult where
  success : Bool
  message : String
deriving DecidableEq, Repr

/-- `GlobalSecurityManager.evaluateSecurityResult` from
`dist/services/globalSecurityManager.js`. -/
def evaluateSecurityResult (securityScan : ScanResult) (policy : GlobalPolicy) : GateResult :=
  if !policy.enforced then
    { success := true
      message := ("安全扫描完成（策略未强制执行）- 得分: ") ++ toString securityScan.score ++
        ("/100, 建议") ++
        (if policy.minimumScore ≤ securityScan.score then ("通过") else ("修复安全问题")) }
  else if policy.strictMode then
    if !securityScan.passed then
      { success := false
        message := ("严格模式下安全检查失败 - 必须修复所有安全问题。错误: ") ++
          String.intercalate ("; ") securityScan.errors }
    else if securityScan.score < policy.minimumScore then
      { success := false
        message := ("严格模式下安全评分不足 - 当前: ") ++ toString securityScan.score ++
          ("/100, 要求: ") ++ toString policy.minimumScore ++ ("/100") }
    else
      { success := true
        message := ("全局安全策略检查通过 - 得分: ") ++ toString securityScan.score ++ ("/100") }
  else
    if securityScan.score < policy.minimumScore then
      if policy.allowedBypass = true ∧ (70 : Int) ≤ securityScan.score then
        { success := true
          message := ("安全评分低于标准但允许绕过 - 当前: ") ++ toString securityScan.score ++
            ("/100, 建议修复问题后重新部署") }
      else
        { success := false
          message := ("安全评分不足 - 当前: ") ++ toString securityScan.score ++
            ("/100, 要求: ") ++ toString policy.minimumScore ++ ("/100。主要问题: ") ++
          String.intercalate ("; ") (securityScan.errors.take 3) }
    else
      { success := true
        message := ("全局安全策略检查通过 - 得分: ") ++ toString securityScan.score ++ ("/100") }

/-! ## String matching infrastructure

The JavaScript regular expressions of `configService.ts` are implemented as
executable matchers over `List Char`.  ASCII classes (`[a-zA-Z0-9]`, `[A-Z]`,
…) map to `Char.isAlphanum` / range comparisons, which agree on ASCII. -/

/-- `p` is a prefix of `s` (character-wise). -/
def startsL : List Char → List Char → Bool
  | [], _ => true
  | _ :: _, [] => false
  | p :: ps, c :: cs => p == c && startsL ps cs

/-- `p` occurs as a contiguous substring of `s` (JS `String.includes` /
unanchored regex of a literal). -/
def substrL (p : List Char) : List Char → Bool
  | [] => startsL p []
  | c :: cs => startsL p (c :: cs) || substrL p cs

/-- String-level substring test. -/
def substrOf (p s : String) : Bool := substrL p.toList s.toList

/-- String-level prefix test (anchored `^literal`). -/
def startsWithStr (p s : String) : Bool := startsL p.toList s.toList

/-- Split at the first occurrence of `ch`: `some (before, after)` or `none`
if `ch` does not occur. -/
def splitAtChar (ch : Char) : List Char → Option (List Char × List Char)
  | [] => none
  | c :: cs =>
    if c == ch then some ([], cs)
    else (splitAtChar ch cs).map (fun p => (c :: p.1, p.2))

/-- Regex word character `\w` = `[A-Za-z0-9_]`. -/
def isWordChar (c : Char) : Bool := c.isAlphanum || c == '_'

/-- Case-insensitive prefix match returning the rest on success. -/
def ciStarts : List Char → List Char → Option (List Char)
  | [], s => some s
  | _ :: _, [] => none
  | p :: ps, c :: cs => if p.toLower == c.toLower then ciStarts ps cs else none

/-- `\bw` matched at the current position with a following word boundary:
`w` is a case-insensitive prefix here and the next character (if any) is not
a word character. -/
def wordHere (w : List Char) (s : List Char) : Bool :=
  match ciStarts w s with
  | some [] => true
  | some (c :: _) => !isWordChar c
  | none => false

/-- Word boundary before the current position: start of string or the
previous character is not a word character (all matched words start with a
word character, so `\b` reduces to this). -/
def boundaryOK : Option Char → Bool
  | none => true
  | some c => !isWordChar c

/-- Scan `s` for an occurrence of `\bw\b` (case-insensitive), tracking the
previous character for the leading boundary. -/
def scanWord (w : List Char) : Option Char → List Char → Bool
  | prev, [] => boundaryOK prev && wordHere w []
  | prev, c :: cs => (boundaryOK prev && wordHere w (c :: cs)) || scanWord w (some c) cs

/-- `/\b(w₁|w₂|…)\b/i.test s`. -/
def hasWordCI (ws : List String) (s : String) : Bool :=
  ws.any (fun w => scanWord w.toList none s.toList)

/-- ASCII lowercase of a string (JS `toLowerCase` on the ASCII identifiers
this code compares). -/
def lowerStr (s : String) : String := String.mk (s.data.map Char.toLower)

/-- ASCII uppercase of a string (JS `toUpperCase`). -/
def upperStr (s : String) : String := String.mk (s.data.map Char.toUpper)

/-! ## Registry entry validation (`configService.ts`) -/

/-- Shell metacharacter class `[;&|`$(){}[\]]` of
`ConfigService.containsDangerousContent`. -/
def shellMetaChars : List Char := (";&|`$()\x7b\x7d[]").toList

/-- `content` contains a shell metacharacter. -/
def hasShellMeta (s : String) : Bool := s.toList.any (fun c => shellMetaChars.contains c)

/-- Destructive command names: `/\b(rm|del|format|mkfs|dd)\b/i`. -/
def destructiveWords : List String := [("rm"), ("del"), ("format"), ("mkfs"), ("dd")]

/-- Code execution function names: `/\b(eval|exec|system)\b/i`. -/
def coderunWords : List String := [("eval"), ("exec"), ("system")]

/-- Privilege escalation keywords: `/\b(sudo|su|runas)\b/i`. -/
def privilegeWords : List String := [("sudo"), ("su"), ("runas")]

/-- `ConfigService.containsDangerousContent`: the five `dangerousPatterns`
tested in order (shell metacharacters, destructive commands, code-execution
functions, `../` traversal, privilege escalation). -/
def containsDangerousContent (content : String) : Bool :=
  hasShellMeta content ||
  hasWordCI destructiveWords content ||
  hasWordCI coderunWords content ||
  (substrOf ("../") content || substrOf ("..\\") content) ||
  hasWordCI privilegeWords content

/-- Image-reference character class `[a-zA-Z0-9._-]`. -/
def imgChar (c : Char) : Bool := c.isAlphanum || c == '.' || c == '_' || c == '-'

/-- Environment-variable name class `[A-Z_]`. -/
def envNameChar (c : Char) : Bool := ('A' ≤ c && c ≤ 'Z') || c == '_'

/-- Environment-variable value class `[^;|&`$]`. -/
def envValChar (c : Char) : Bool :=
  !(c == ';' || c == '|' || c == '&' || c == '`' || c == '$')

/-- `/^-[a-zA-Z]$/` — single-character flag. -/
def dockerShortFlag (s : List Char) : Bool :=
  match s with
  | [a, b] => a == '-' && b.isAlpha
  | _ => false

/-- `/^--[a-zA-Z-]+$/` — long flag. -/
def dockerLongFlag (s : List Char) : Bool :=
  match s with
  | a :: b :: rest => a == '-' && b == '-' && !rest.isEmpty &&
      rest.all (fun c => c.isAlpha || c == '-')
  | _ => false

/-- `/^[a-zA-Z0-9._-]+:[a-zA-Z0-9._-]+$/` — `image:tag` reference.  The
class excludes `:`, so the regex splits the string at its unique colon. -/
def imageRefParam (s : List Char) : Bool :=
  match splitAtChar ':' s with
  | some (a, b) => !a.isEmpty && a.all imgChar && !b.isEmpty && b.all imgChar
  | none => false

/-- `/^[A-Z_]+=[^;|&`$]*$/` — `KEY=value` token.  The name class excludes
`=`, so the regex's `=` is the first `=` of the string. -/
def envAssignParam (s : List Char) : Bool :=
  match splitAtChar '=' s with
  | some (a, b) => !a.isEmpty && a.all envNameChar && b.all envValChar
  | none => false

/-- `ConfigService.isDockerParameter`: the six `dockerParams` shapes. -/
def isDockerParameter (arg : String) : Bool :=
  dockerShortFlag arg.toList ||
  dockerLongFlag arg.toList ||
  imageRefParam arg.toList ||
  startsWithStr ("ghcr.io/") arg ||
  startsWithStr ("docker.io/") arg ||
  envAssignParam arg.toList

/-- Relative path character class `[-a-zA-Z0-9._/]`. -/
def pathChar (c : Char) : Bool :=
  c.isAlphanum || c == '.' || c == '_' || c == '/' || c == '-'

/-- `^anchor[-a-zA-Z0-9._/]+$`: `s` starts with `anchor` and the non-empty
remainder consists of path characters. -/
def matchAfter (anchor : List Char) (s : List Char) : Bool :=
  startsL anchor s && !(s.drop anchor.length).isEmpty && (s.drop anchor.length).all pathChar

/-- `/^\.\/[-a-zA-Z0-9._/]+$/` — `./relative/path`. -/
def matchDotSlash (s : String) : Bool := matchAfter (("./").toList) s.toList

/-- `/^\.\.\/[-a-zA-Z0-9._/]+$/` — `../relative/path`. -/
def matchDotDotSlash (s : String) : Bool := matchAfter (("../").toList) s.toList

/-- `/^~\/[-a-zA-Z0-9._/]+$/` — `~/home/path`. -/
def matchTildeSlash (s : String) : Bool := matchAfter (("~/").toList) s.toList

/-- `ConfigService.isLegitimateRelativePath`: one of the three legitimate
shapes and none of the two dangerous multi-level traversal patterns
(`/\.\.\/\.\.\//` and `/~\/\.\.\//`). -/
def isLegitimateRelativePath (arg : String) : Bool :=
  let isLegitimate := matchDotSlash arg || matchDotDotSlash arg || matchTildeSlash arg
  let isDangerous := substrOf ("../../") arg || substrOf ("~/../") arg
  isLegitimate && !isDangerous

/-- `ConfigService.looksLikeSensitiveData`. -/
def looksLikeSensitiveData (key value : String) : Bool :=
  let looksLikeSecret := 16 < value.length &&
    value.toList.all (fun c => c.isAlphanum || c == '+' || c == '/' || c == '=')
  let looksLikeApiKey := 20 < value.length &&
    value.toList.all (fun c => c.isAlphanum || c == '_' || c == '-')
  let containsSensitiveKeyword :=
    [("password"), ("passwd"), ("secret"), ("token"), ("key"), ("credential")].any
      (fun w => substrOf w (lowerStr key))
  containsSensitiveKeyword && (looksLikeSecret || looksLikeApiKey)

/-- `ConfigService.isCommonDevEnvVar`. -/
def isCommonDevEnvVar (key : String) : Bool :=
  [("NODE_ENV"), ("LOG_LEVEL"), ("DEBUG"), ("PORT"), ("HOST"), ("PATH"), ("NODE_OPTIONS"),
   ("GITHUB_PERSONAL_ACCESS_TOKEN"), ("OPENAI_API_KEY")].any
    (fun v => substrOf (upperStr v) (upperStr key))

/-- One entry of the registry: `MCPServerConfig` of `types/index.ts`. -/
structure MCPServerConfig where
  command : String
  args : List String
  env : Option (List (String × String)) := none
  disabled : Option Bool := none
  autoApprove : Option (List String) := none
deriving DecidableEq, Repr

/-- Launcher allow-list of `ConfigService.validateServerConfig`. -/
def allowedCommands : List String :=
  [("node"), ("python"), ("npx"), ("python3"), ("cmd"), ("docker"), ("java"), ("go"), ("rust")]

/-- Shell/interpreter deny-list of `ConfigService.validateServerConfig`. -/
def dangerousCommands : List String :=
  [("powershell"), ("bash"), ("sh"), ("eval"), ("exec")]

/-- `/^[A-Z]:\\|^\//` — Windows drive or Unix absolute path. -/
def isAbsolutePath (s : String) : Bool :=
  match s.toList with
  | '/' :: _ => true
  | c :: ':' :: '\\' :: _ => 'A' ≤ c && c ≤ 'Z'
  | _ => false

/-- Dangerous environment variable names. -/
def dangerousEnvVars : List String := [("LD_LIBRARY_PATH"), ("DYLD_LIBRARY_PATH")]

/-- Dangerous auto-approve capability names. -/
def dangerousTools : List String :=
  [("exec"), ("eval"), ("system"), ("shell"), ("file_delete"), ("admin")]

/-- Error text for a dangerous-content finding in `args[i]`. -/
def dangerContentMsg (name : String) (i : Nat) : String :=
  ("服务器 \"") ++ name ++ ("\": args[") ++ toString i ++ ("]包含潜在危险内容")

/-- Error text for a path-traversal finding in `args[i]`. -/
def pathTraversalMsg (name : String) (i : Nat) : String :=
  ("服务器 \"") ++ name ++ ("\": args[") ++ toString i ++ ("]包含路径遍历字符，存在安全风险")

/-- The per-element `args` checks of `ConfigService.validateServerConfig`
(lines 342-360): a dangerous-content error unless the safe-parameter shapes
apply, then a path-traversal error for `..`/`~` unless the legitimate
relative path shapes apply. -/
def argErrors (name : String) (i : Nat) (arg : String) : List String :=
  (if containsDangerousContent arg && !isDockerParameter arg then
    [dangerContentMsg name i]
  else []) ++
  (if (substrOf ("..") arg || substrOf ("~") arg) && !isLegitimateRelativePath arg then
    [pathTraversalMsg name i]
  else [])

/-- `ConfigService.validateServerConfig` (the runtime `typeof` checks are
vacuous in the typed model): command allow/deny lists, per-element `args`
checks, environment variable checks, and auto-approve checks. -/
def validateServerConfig (name : String) (cfg : MCPServerConfig) (skipValidation : Bool) :
    List String :=
  let commandErrors :=
    if cfg.command = ("") then
      [("服务器 \"") ++ name ++ ("\": command字段必须是非空字符串")]
    else if !skipValidation then
      (if !(allowedCommands.contains cfg.command) && !(isAbsolutePath cfg.command) then
        [("服务器 \"") ++ name ++ ("\": 不允许的命令类型 \"") ++ cfg.command ++
          ("\"，只允许: ") ++ String.intercalate (", ") allowedCommands ++ (" 或绝对路径")]
      else []) ++
      (if dangerousCommands.contains (lowerStr cfg.command) then
        [("服务器 \"") ++ name ++ ("\": 检测到危险命令 \"") ++ cfg.command ++
          ("\"，可能存在安全风险")]
      else [])
    else []
  let argumentErrors :=
    if !skipValidation then
      ((cfg.args.enum.map (fun p => argErrors name p.1 p.2)).flatten)
    else []
  let envErrors :=
    match cfg.env with
    | none => []
    | some env =>
      if !skipValidation then
        ((env.map (fun kv =>
          (if looksLikeSensitiveData kv.1 kv.2 && !isCommonDevEnvVar kv.1 then
            [("服务器 \"") ++ name ++ ("\": 环境变量 ") ++ kv.1 ++
              (" 疑似包含敏感信息，建议通过安全方式传递")]
          else []) ++
          (if dangerousEnvVars.contains (upperStr kv.1) then
            [("服务器 \"") ++ name ++ ("\": 环境变量 ") ++ kv.1 ++
              (" 可能影响系统安全，不建议设置")]
          else []))).flatten)
      else []
  let autoApproveErrors :=
    match cfg.autoApprove with
    | none => []
    | some tools =>
      ((tools.map (fun tool =>
        if dangerousTools.any (fun d => substrOf d (lowerStr tool)) then
          [("服务器 \"") ++ name ++ ("\": autoApprove包含潜在危险工具 \"") ++ tool ++
            ("\"，不建议自动批准")]
        else [])).flatten)
  commandErrors ++ argumentErrors ++ envErrors ++ autoApproveErrors

/-! ## Registry document and filesystem state (`configService.ts`) -/

/-- The parsed registry document: the `mcpServers` object as an association
list in insertion order (JavaScript object keys are unique in any document
the code itself writes). -/
abbrev Registry := List (String × MCPServerConfig)

/-- JS `currentConfig.mcpServers[name]` lookup. -/
def getServer (r : Registry) (name : String) : Option MCPServerConfig :=
  (r.find? (fun p => p.1 == name)).map (fun p => p.2)

/-- JS `currentConfig.mcpServers[name] = serverConfig`: replace the binding
in place if the key exists, otherwise append it. -/
def setServer (r : Registry) (name : String) (cfg : MCPServerConfig) : Registry :=
  if r.any (fun p => p.1 == name) then
    r.map (fun p => if p.1 == name then (name, cfg) else p)
  else r ++ [(name, cfg)]

/-- JS `delete currentConfig.mcpServers[name]`. -/
def removeEntry (r : Registry) (name : String) : Registry :=
  r.filter (fun p => !(p.1 == name))

/-- Number of entries named `name`. -/
def countName (r : Registry) (name : String) : Nat :=
  (r.filter (fun p => p.1 == name)).length

/-- `ValidationResult` of `types/index.ts`. -/
structure ValidationResult where
  valid : Bool
  errors : List String
  warnings : List String
deriving DecidableEq, Repr

/-- `ConfigService.validateConfig`: validate every server entry and collect
all errors (`valid` iff none; the structural `typeof` branches are vacuous
in the typed model, and `warnings` stays empty because `mcpServers` is
always present here). -/
def validateConfig (cfg : Registry) (skipValidation : Bool) : ValidationResult :=
  let errors := ((cfg.map (fun p => validateServerConfig p.1 p.2 skipValidation)).flatten)
  { valid := errors.isEmpty, errors := errors, warnings := [] }

/-- One timestamped snapshot file in the backup directory. -/
structure BackupFile where
  mtime : Nat
  filename : String
  content : Registry
deriving DecidableEq, Repr

/-- The filesystem state seen by `ConfigService`: the registry file (absent
or holding a parsed document), the backup directory as a newest-first list,
a logical clock for timestamps, the `config.cursor.backupEnabled` /
`config.cursor.maxBackups` configuration, and a fault-injection flag that
makes the backup file copy fail (modelling the I/O errors a real `fs.copy`
can raise). -/
structure FsState where
  registry : Option Registry
  backups : List BackupFile
  clock : Nat
  backupEnabled : Bool
  maxBackups : Nat
  faultBackup : Bool
deriving DecidableEq, Repr

/-- Timestamp-derived backup filename
(`mcp-config-backup-<timestamp>.json`). -/
def backupName (t : Nat) : String :=
  ("mcp-config-backup-") ++ toString t ++ (".json")

/-- The snapshot `createBackup` takes of registry content `r` at the start
of a call on state `s`. -/
def freshBackup (s : FsState) (r : Registry) : BackupFile :=
  { mtime := s.clock, filename := backupName s.clock, content := r }

/-- `ConfigService.readConfig`: auto-creates an empty document (and the
backing file) when the registry file is absent. -/
def readConfig (s : FsState) : Registry × FsState :=
  match s.registry with
  | some r => (r, s)
  | none => ([], { s with registry := some ([] : Registry) })

/-- `ConfigService.writeConfig`: validates (unless skipped) and replaces the
registry file; a failed validation throws `配置验证失败` and writes
nothing. -/
def writeConfig (s : FsState) (cfg : Registry) (skipValidation : Bool) :
    Except String FsState :=
  if !(validateConfig cfg skipValidation).valid && !skipValidation then
    Except.error ("配置验证失败")
  else Except.ok { s with registry := some cfg }

/-- `ConfigService.createBackup`: requires the registry file to exist,
copies it to a fresh timestamp-named file, then evicts the oldest backups
beyond `maxBackups` (`cleanupOldBackups`; the list is newest-first, so the
retention cap is a `take`).  Any failure is rethrown as the
`ConfigurationError` message `无法创建配置备份`. -/
def createBackup (s : FsState) : Except String (BackupFile × FsState) :=
  match s.registry with
  | none => Except.error ("无法创建配置备份")
  | some r =>
    if s.faultBackup then Except.error ("无法创建配置备份")
    else
      let b := freshBackup s r
      Except.ok (b,
        { s with backups := (b :: s.backups).take s.maxBackups, clock := s.clock + 1 })

/-- `DeploymentResult` of `types/index.ts`. -/
structure DeploymentResult where
  success : Bool
  message : String
  serverName : Option String := none
  errors : List String := []
  warnings : List String := []
deriving DecidableEq, Repr

/-- The rejection `ConfigService.addServer` returns on a name conflict
without `force`. -/
def conflictResult (name : String) : DeploymentResult :=
  { success := false
    message := ("服务器 \"") ++ name ++ ("\" 已存在，拒绝覆盖。如果确实要覆盖，请使用 force 选项")
    errors := [("服务器名称冲突: \"") ++ name ++ ("\" 已经存在于配置中")]
    warnings := [("为了安全起见，系统拒绝覆盖现有的MCP服务器配置"),
      ("如果确实需要更新此服务器，请先使用 remove_mcp_server 移除现有配置"),
      ("或者在部署参数中设置 force: true 来强制覆盖")] }

/-- `ConfigService.addServer` (lines 501-573): read the current document,
reject a name conflict unless `force`, create a backup when backups are
enabled, insert the entry, and write the document.  Thrown errors are
caught and returned as a failure result. -/
def addServer (name : String) (serverConfig : MCPServerConfig) (force : Bool) (s : FsState) :
    DeploymentResult × FsState :=
  let rc := readConfig s
  let currentConfig := rc.1
  let s1 := rc.2
  if (getServer currentConfig name).isSome && !force then
    (conflictResult name, s1)
  else
    match (if s1.backupEnabled then (createBackup s1).map Prod.snd else Except.ok s1) with
    | Except.error msg =>
      ({ success := false, message := ("部署服务器失败: ") ++ msg, errors := [msg] }, s1)
    | Except.ok s2 =>
      let isOverwrite := (getServer currentConfig name).isSome
      match writeConfig s2 (setServer currentConfig name serverConfig) false with
      | Except.error msg =>
        ({ success := false, message := ("部署服务器失败: ") ++ msg, errors := [msg] }, s2)
      | Except.ok s3 =>
        ({ success := true
           message :=
             if isOverwrite then ("服务器 \"") ++ name ++ ("\" 已强制覆盖更新")
             else ("服务器 \"") ++ name ++ ("\" 部署成功")
           serverName := some name
           warnings :=
             if isOverwrite then [("已覆盖现有服务器 \"") ++ name ++ ("\" 的配置")] else [] },
         s3)

/-- `ConfigService.removeServer` (lines 894-937): backup first (when
enabled), then read, reject a missing name, delete the entry and write. -/
def removeServer (name : String) (s : FsState) : DeploymentResult × FsState :=
  match (if s.backupEnabled then (createBackup s).map Prod.snd else Except.ok s) with
  | Except.error msg =>
    ({ success := false, message := ("移除服务器失败: ") ++ msg, errors := [msg] }, s)
  | Except.ok s1 =>
    let rc := readConfig s1
    let currentConfig := rc.1
    let s2 := rc.2
    if (getServer currentConfig name).isNone then
      ({ success := false
         message := ("服务器 \"") ++ name ++ ("\" 不存在")
         warnings := [("服务器 \"") ++ name ++ ("\" 未在配置中找到")] }, s2)
    else
      match writeConfig s2 (removeEntry currentConfig name) false with
      | Except.error msg =>
        ({ success := false, message := ("移除服务器失败: ") ++ msg, errors := [msg] }, s2)
      | Except.ok s3 =>
        ({ success := true, message := ("服务器 \"") ++ name ++ ("\" 已移除")
           serverName := some name }, s3)

/-- `ConfigService.restoreFromBackup` (lines 249-270): fail if the named
backup file does not exist; otherwise snapshot the current registry with
`createBackup` (a failure there aborts the restore), then copy the named
backup file onto the live registry with `fs.copy`.  The copy re-reads the
backup *file* after `createBackup`'s retention cleanup has run: when that
cleanup evicted the very file being restored (it was the oldest with the
directory already at the cap), the copy fails and the restore aborts with
the registry untouched.  The boolean is the success of the call (the
source throws `ConfigurationError` on failure). -/
def restoreFromBackup (backupFilename : String) (s : FsState) : Bool × FsState :=
  match s.backups.find? (fun b => b.filename == backupFilename) with
  | none => (false, s)
  | some _ =>
    match createBackup s with
    | Except.error _ => (false, s)
    | Except.ok p =>
      match p.2.backups.find? (fun b => b.filename == backupFilename) with
      | none => (false, p.2)
      | some b => (true, { p.2 with registry := some b.content })

/-- Result shape of `ConfigService.addServerWithProtection`
(`DeploymentResult & { securityScan?, backupInfo? }`). -/
structure ProtectedResult where
  success : Bool
  message : String
  serverName : Option String := none
  errors : List String := []
  warnings : List String := []
  securityScan : Option ScanResult := none
  backupInfo : Option BackupFile := none
deriving DecidableEq, Repr

/-- `ConfigService.addServerProtected` (lines 701-779): write the entry
(honouring `skipValidation`), then re-read and verify it is present;
failures are caught and returned as failure results. -/
def addServerProtected (name : String) (serverConfig : MCPServerConfig) (_force : Bool)
    (isOverwrite : Bool) (skipValidation : Bool) (s : FsState) : DeploymentResult × FsState :=
  let rc := readConfig s
  let currentConfig := rc.1
  let s1 := rc.2
  match writeConfig s1 (setServer currentConfig name serverConfig) skipValidation with
  | Except.error msg =>
    ({ success := false, message := ("受保护的服务器添加失败: ") ++ msg, errors := [msg] }, s1)
  | Except.ok s2 =>
    let rc2 := readConfig s2
    let postConfig := rc2.1
    let s3 := rc2.2
    if (getServer postConfig name).isNone then
      ({ success := false
         message := ("受保护的服务器添加失败: 配置写入验证失败，服务器配置未正确保存")
         errors := [("配置写入验证失败，服务器配置未正确保存")] }, s3)
    else
      ({ success := true
         message :=
           if isOverwrite then ("服务器 \"") ++ name ++ ("\" 已安全更新（原配置已备份）")
           else ("服务器 \"") ++ name ++ ("\" 已安全部署")
         serverName := some name
         warnings :=
           if isOverwrite then
             [("已安全覆盖现有服务器 \"") ++ name ++ ("\" 的配置，原配置已备份")]
           else [] }, s3)

/-- `ConfigService.addServerWithProtection` (lines 579-695): read the
current state, unconditionally create a backup (aborting the deployment if
that fails), apply the existing-server protection, run the global security
gate, and only then perform the protected add.  The security scan of the
candidate executable and the global policy are inputs: the scan is produced
by `SecurityService.scanMCPService` on the external candidate files and the
policy is read from the policy store; `enforceGlobalSecurity` combines them
through `evaluateSecurityResult`, whose verdict gates the deployment. -/
def addServerWithProtection (name : String) (serverConfig : MCPServerConfig)
    (securityScan : ScanResult) (policy : GlobalPolicy) (force : Bool) (skipValidation : Bool)
    (s : FsState) : ProtectedResult × FsState :=
  let rc := readConfig s
  let currentConfig := rc.1
  let s1 := rc.2
  let hasExistingServer := (getServer currentConfig name).isSome
  match createBackup s1 with
  | Except.error msg =>
    ({ success := false
       message := ("创建配置备份失败，为保护现有配置拒绝部署")
       errors := [("无法创建配置备份"), msg, ("部署已被阻止以保护现有配置的安全")] }, s1)
  | Except.ok bp =>
    let backupInfo := bp.1
    let s2 := bp.2
    if hasExistingServer && !force then
      ({ success := false
         message := ("服务器 \"") ++ name ++ ("\" 已存在，为保护原有配置拒绝覆盖")
         errors := [("服务器 \"") ++ name ++ ("\" 在当前配置中已存在"),
           ("原有配置受到保护，不允许意外覆盖")]
         warnings := [("这是一个安全保护机制，防止意外覆盖重要的服务器配置"),
           ("如果确实需要更新此服务器，请执行以下步骤："),
           ("1. 使用 remove_mcp_server 先移除现有配置"),
           ("2. 重新部署新的服务器配置"),
           ("3. 或者在部署参数中设置 force: true 来强制覆盖（谨慎使用）")]
         backupInfo := some backupInfo }, s2)
    else
      let gate := evaluateSecurityResult securityScan policy
      if !gate.success then
        ({ success := false
           message := ("全局安全策略检查失败: ") ++ gate.message
           errors := [("未通过全局MCP安全策略检查"), gate.message] ++ securityScan.errors
           warnings := securityScan.warnings
           securityScan := some securityScan
           backupInfo := some backupInfo }, s2)
      else
        let ap := addServerProtected name serverConfig force hasExistingServer skipValidation s2
        ({ success := ap.1.success, message := ap.1.message, serverName := ap.1.serverName
           errors := ap.1.errors, warnings := ap.1.warnings
           securityScan := some securityScan
           backupInfo := some backupInfo }, ap.2)

/-! ## Helper lemmas -/

/-- If every category check passed, `calculateSecurityScore` deducts
nothing: every deduction branch is guarded by the category's `passed`
flag, so the score is exactly 100. -/
theorem score_of_all_passed (c : CodeAnalysisResult) (d : DependencyCheckResult)
    (cf : ConfigurationCheckResult) (p : PermissionCheckResult)
    (hc : c.passed = true) (hd : d.passed = true) (hcf : cf.passed = true)
    (hp : p.passed = true) : calculateSecurityScore c d cf p = 100 := by
  simp [calculateSecurityScore, hc, hd, hcf, hp]

/-! ## C3 — Global Policy Gate three-tier evaluation -/

/-- **C3.** Three-tier evaluation of `evaluateSecurityResult`: with
`enforced = false` the gate always accepts; with `strictMode = true` it
accepts iff `passed = true` and `score ≥ minimumScore` (so any category
failure rejects regardless of score); in standard mode it accepts iff
`score ≥ minimumScore`, or `score < minimumScore` with `score ≥ 70` and
`allowedBypass = true`, in which case the message is the bypass warning. -/
theorem gate_three_tier (s : ScanResult) (p : GlobalPolicy) :
    (p.enforced = false → (evaluateSecurityResult s p).success = true) ∧
    (p.enforced = true → p.strictMode = true →
      ((evaluateSecurityResult s p).success = true ↔
        (s.passed = true ∧ p.minimumScore ≤ s.score))) ∧
    (p.enforced = true → p.strictMode = false →
      ((evaluateSecurityResult s p).success = true ↔
        (p.minimumScore ≤ s.score ∨
          (s.score < p.minimumScore ∧ (70 : Int) ≤ s.score ∧ p.allowedBypass = true)))) ∧
    (p.enforced = true → p.strictMode = false → s.score < p.minimumScore →
      (70 : Int) ≤ s.score → p.allowedBypass = true →
      evaluateSecurityResult s p =
        { success := true
          message := ("安全评分低于标准但允许绕过 - 当前: ") ++ toString s.score ++
            ("/100, 建议修复问题后重新部署") }) := by
  refine ⟨fun h => ?_, fun he hs => ?_, fun he hs => ?_, fun he hs h1 h2 h3 => ?_⟩
  · simp [evaluateSecurityResult, h]
  · cases hp : s.passed
    · simp [evaluateSecurityResult, he, hs, hp]
    · simp only [evaluateSecurityResult, he, hs, hp, Bool.not_true, Bool.not_false,
        if_true, if_false]
      split_ifs with h1 <;> simp_all
  · simp only [evaluateSecurityResult, he, hs, Bool.not_true, Bool.not_false,
      if_true, if_false]
    rcases hb : p.allowedBypass <;> split_ifs with h1 h2 <;> simp_all
  · simp [evaluateSecurityResult, he, hs, h1, h2, h3, not_lt.mpr h2]

/-- Scan result used to witness C3. -/
def scanPassing90 : ScanResult :=
  { passed := true
    score := 90
    warnings := []
    errors := []
    details :=
      { codeAnalysis := mkCodeAnalysis [] [] []
        dependencyCheck := mkDependencyCheck false false [] []
        configurationCheck := mkConfigurationCheck [] []
        permissionCheck := mkPermissionCheck true true true false } }

/-- Strict default policy used to witness C3. -/
def strictPolicy90 : GlobalPolicy :=
  { enforced := true, minimumScore := 85, strictMode := true, allowedBypass := false }

/-- Witness for C3: a passing scan with score 90 is accepted under the
enforced strict policy with threshold 85. -/
theorem gate_three_tier_witness :
    (evaluateSecurityResult scanPassing90 strictPolicy90).success = true :=
  ((gate_three_tier scanPassing90 strictPolicy90).2.1 rfl rfl).mpr ⟨rfl, by decide⟩

/-! ## C5 — policy decoupling scenario -/

/-- Category details in which every check passed (used to build the
spec's fixed ScanResult for the gate scenario). -/
def allPassedDetails : ScanDetails :=
  { codeAnalysis := mkCodeAnalysis [] [] []
    dependencyCheck := mkDependencyCheck false false [] []
    configurationCheck := mkConfigurationCheck [] []
    permissionCheck := mkPermissionCheck true true true false }

/-- The spec's fixed scan result: `passed = true`, `score = 60`. -/
def scanSixty : ScanResult :=
  { passed := true
    score := 60
    warnings := []
    errors := []
    details := allPassedDetails }

/-- The same scan result with score 70. -/
def scanSeventy : ScanResult :=
  { passed := true
    score := 70
    warnings := []
    errors := []
    details := allPassedDetails }

/-- The spec's strict policy `{enforced: true, strictMode: true, minimumScore: 85}`. -/
def strictPolicy85 : GlobalPolicy :=
  { enforced := true, minimumScore := 85, strictMode := true, allowedBypass := false }

/-- The spec's bypass policy
`{enforced: true, strictMode: false, minimumScore: 85, allowedBypass: true}`. -/
def bypassPolicy85 : GlobalPolicy :=
  { enforced := true, minimumScore := 85, strictMode := false, allowedBypass := true }

/-- **C5 counterexample.** The claim asserts the gate accepts the
`passed = true, score = 60` scan under
`{enforced: true, strictMode: false, minimumScore: 85, allowedBypass: true}`
with a bypass warning; the code rejects it, because the bypass branch
additionally requires `score >= 70`. -/
theorem gate_bypass_sixty_rejected :
    (evaluateSecurityResult scanSixty bypassPolicy85).success = false := by decide

/-- **C5 (amended).** For the fixed `passed = true, score = 60` scan the
gate rejects under the strict policy (score below threshold even though all
category checks passed) and also rejects under the standard bypass policy,
since the bypass escape hatch requires `score ≥ 70`; the same scan with
score 70 is accepted by the bypass policy with the bypass warning. -/
theorem gate_decoupling_scenario :
    (evaluateSecurityResult scanSixty strictPolicy85).success = false ∧
    (evaluateSecurityResult scanSixty bypassPolicy85).success = false ∧
    (evaluateSecurityResult scanSeventy bypassPolicy85).success = true ∧
    (evaluateSecurityResult scanSeventy bypassPolicy85).message =
      ("安全评分低于标准但允许绕过 - 当前: 70/100, 建议修复问题后重新部署") := by
  refine ⟨by decide, by decide, by decide, ?_⟩
  decide

/-! ## C4 — score / passed decoupling -/

/-- **C4 counterexample.** The claim asserts some scan outcome with every
category check passed scores below the policy threshold (85); this is
impossible: every deduction in `calculateSecurityScore` is guarded by the
corresponding category's `passed` flag, so all-passed scans score
exactly 100. -/
theorem no_low_score_with_all_passed :
    ¬ ∃ (c : CodeAnalysisResult) (d : DependencyCheckResult)
        (cf : ConfigurationCheckResult) (p : PermissionCheckResult),
        (c.passed = true ∧ d.passed = true ∧ cf.passed = true ∧ p.passed = true) ∧
        calculateSecurityScore c d cf p < 85 := by
  rintro ⟨c, d, cf, p, ⟨hc, hd, hcf, hp⟩, hlt⟩
  rw [score_of_all_passed c d cf p hc hd hcf hp] at hlt
  omega

/-- **C4 (amended).** The score and the `passed` flag are coupled in one
direction: whenever no category check failed the computed score is exactly
100, so a `passed = true` scan can never score below the threshold.  The
decoupling runs the other way only: a category failure can coexist with a
score at or above the threshold — a single dangerous finding yields
`passed = false` with score 90 ≥ 85. -/
theorem score_passed_coupling :
    (∀ (c : CodeAnalysisResult) (d : DependencyCheckResult)
        (cf : ConfigurationCheckResult) (p : PermissionCheckResult),
        c.passed = true → d.passed = true → cf.passed = true → p.passed = true →
        calculateSecurityScore c d cf p = 100) ∧
    ((scanAggregate (mkCodeAnalysis [("eval()函数 在 server.js")] [] [])
        (mkDependencyCheck false false [] []) (mkConfigurationCheck [] [])
        (mkPermissionCheck true true true false)).passed = false ∧
      (scanAggregate (mkCodeAnalysis [("eval()函数 在 server.js")] [] [])
        (mkDependencyCheck false false [] []) (mkConfigurationCheck [] [])
        (mkPermissionCheck true true true false)).score = 90) := by
  exact ⟨fun c d cf p => score_of_all_passed c d cf p, by decide⟩

/-- Witness for C4 (amended): the universal part applied to the all-passed
category results of a clean scan gives score 100. -/
theorem score_passed_coupling_witness :
    calculateSecurityScore (mkCodeAnalysis [] [] []) (mkDependencyCheck true false [] [])
      (mkConfigurationCheck [] []) (mkPermissionCheck true true true false) = 100 :=
  score_passed_coupling.1 (mkCodeAnalysis [] [] []) (mkDependencyCheck true false [] [])
    (mkConfigurationCheck [] []) (mkPermissionCheck true true true false)
    rfl rfl rfl rfl

/-! ## C7 — score monotonicity -/

/-- Deduction the code-analysis category contributes to the score. -/
def codeDeduction (c : CodeAnalysisResult) : Int :=
  if !c.passed then
    min 40 ((c.dangerousFunctions.length : Int) * 10 + (c.maliciousCommands.length : Int) * 15)
  else 0

/-- Net deduction the dependency category contributes to the score
(vulnerable-dependency penalty plus version penalty minus the recovery
bonus). -/
def depDeduction (d : DependencyCheckResult) : Int :=
  if !d.passed then
    min 20 ((d.vulnerableDependencies.length : Int) * 10) +
    min 15 (((d.unspecifiedVersions.length / 3 : Nat) : Int) * 5) -
    (if d.vulnerableDependencies.length = 0 ∧ 0 < d.unspecifiedVersions.length then
      min 5 ((d.unspecifiedVersions.length / 5 : Nat) : Int)
    else 0)
  else 0

/-- Deduction the configuration category contributes to the score. -/
def confDeduction (cf : ConfigurationCheckResult) : Int :=
  if !cf.passed then
    min 20 ((cf.hardcodedSecrets.length : Int) * 15 + (cf.insecureConfigs.length : Int) * 5)
  else 0

/-- Deduction the permission category contributes to the score. -/
def permDeduction (p : PermissionCheckResult) : Int :=
  if !p.passed then
    if !p.fileExists then 10
    else
      min 10 ((if !p.isInSecurePath then (5 : Int) else 0) +
        (if p.pathTraversalRisk then (5 : Int) else 0))
  else 0

set_option maxHeartbeats 1000000 in
/-- Shape of `calculateSecurityScore`: 100 minus the four per-category
deductions, clamped to `[0, 100]`. -/
theorem calculateSecurityScore_eq (c : CodeAnalysisResult) (d : DependencyCheckResult)
    (cf : ConfigurationCheckResult) (p : PermissionCheckResult) :
    calculateSecurityScore c d cf p =
      max 0 (min 100 (100 - codeDeduction c - depDeduction d - confDeduction cf -
        permDeduction p)) := by
  simp only [calculateSecurityScore, codeDeduction, depDeduction, confDeduction, permDeduction]
  split_ifs <;> omega

/-- The code-analysis deduction is non-negative. -/
theorem codeDeduction_nonneg (c : CodeAnalysisResult) : 0 ≤ codeDeduction c := by
  simp only [codeDeduction]
  split_ifs <;> omega

/-- The dependency deduction is non-negative: the recovery bonus is applied
only when there are no vulnerable dependencies, and it never exceeds the
version penalty. -/
theorem depDeduction_nonneg (d : DependencyCheckResult) : 0 ≤ depDeduction d := by
  simp only [depDeduction]
  split_ifs <;> omega

/-- The configuration deduction is non-negative. -/
theorem confDeduction_nonneg (cf : ConfigurationCheckResult) : 0 ≤ confDeduction cf := by
  simp only [confDeduction]
  split_ifs <;> omega

/-- The permission deduction is non-negative. -/
theorem permDeduction_nonneg (p : PermissionCheckResult) : 0 ≤ permDeduction p := by
  simp only [permDeduction]
  split_ifs <;> omega

/-- Adding a dangerous finding weakly increases the code deduction. -/
theorem codeDeduction_cons_dangerous (x : String) (dang susp mal : List String) :
    codeDeduction (mkCodeAnalysis dang susp mal) ≤
      codeDeduction (mkCodeAnalysis (x :: dang) susp mal) := by
  cases dang <;> cases mal <;>
    simp only [codeDeduction, mkCodeAnalysis, List.isEmpty_cons, List.isEmpty_nil,
      Bool.and_self, Bool.false_and, Bool.and_false, Bool.true_and, Bool.and_true,
      Bool.not_true, Bool.not_false, if_true, if_false, List.length_cons, List.length_nil,
      Bool.not_eq_true'] <;>
    (try split_ifs) <;> omega

/-- Adding a malicious finding weakly increases the code deduction. -/
theorem codeDeduction_cons_malicious (x : String) (dang susp mal : List String) :
    codeDeduction (mkCodeAnalysis dang susp mal) ≤
      codeDeduction (mkCodeAnalysis dang susp (x :: mal)) := by
  cases dang <;> cases mal <;>
    simp only [codeDeduction, mkCodeAnalysis, List.isEmpty_cons, List.isEmpty_nil,
      Bool.and_self, Bool.false_and, Bool.and_false, Bool.true_and, Bool.and_true,
      Bool.not_true, Bool.not_false, if_true, if_false, List.length_cons, List.length_nil,
      Bool.not_eq_true'] <;>
    (try split_ifs) <;> omega

/-- A non-empty dangerous-finding list forces a code deduction of at
least 10. -/
theorem codeDeduction_ge_ten (dang susp mal : List String) (h : dang ≠ []) :
    10 ≤ codeDeduction (mkCodeAnalysis dang susp mal) := by
  cases dang with
  | nil => exact absurd rfl h
  | cons y ys =>
    simp only [codeDeduction, mkCodeAnalysis, List.isEmpty_cons, Bool.false_and,
      Bool.not_false, if_true, List.length_cons]
    omega

/-- **C7.** With every other category result fixed, adding a dangerous or a
malicious finding to the code-analysis result never increases
`calculateSecurityScore`; and with no findings at all (every category check
passed) the score is exactly 100. -/
theorem score_monotone_and_clean_100 :
    (∀ (x : String) (dang susp mal : List String) (d : DependencyCheckResult)
        (cf : ConfigurationCheckResult) (p : PermissionCheckResult),
        calculateSecurityScore (mkCodeAnalysis (x :: dang) susp mal) d cf p ≤
          calculateSecurityScore (mkCodeAnalysis dang susp mal) d cf p ∧
        calculateSecurityScore (mkCodeAnalysis dang susp (x :: mal)) d cf p ≤
          calculateSecurityScore (mkCodeAnalysis dang susp mal) d cf p) ∧
    (∀ (hasPkg hasReq isExec isSec : Bool),
        calculateSecurityScore (mkCodeAnalysis [] [] []) (mkDependencyCheck hasPkg hasReq [] [])
          (mkConfigurationCheck [] []) (mkPermissionCheck true isExec isSec false) = 100) := by
  constructor
  · intro x dang susp mal d cf p
    have h1 := codeDeduction_cons_dangerous x dang susp mal
    have h2 := codeDeduction_cons_malicious x dang susp mal
    rw [calculateSecurityScore_eq, calculateSecurityScore_eq,
      calculateSecurityScore_eq (mkCodeAnalysis dang susp (x :: mal))]
    omega
  · intro hasPkg hasReq isExec isSec
    exact score_of_all_passed _ _ _ _ rfl rfl rfl rfl

/-! ## C6 — dangerous code-execution finding -/

/-- **C6 counterexample.** A scan whose code analysis found one direct
code-execution call (eval) and whose other categories passed has
`codeAnalysis.passed = false` and overall `passed = false` as claimed, but
its score is 90, not at most 85: the source deducts 10 per dangerous
function. -/
theorem scan_eval_scores_ninety :
    (scanAggregate (mkCodeAnalysis [("eval()函数 在 server.js")] [] [])
      (mkDependencyCheck true false [] []) (mkConfigurationCheck [] [])
      (mkPermissionCheck true true true false)).details.codeAnalysis.passed = false ∧
    (scanAggregate (mkCodeAnalysis [("eval()函数 在 server.js")] [] [])
      (mkDependencyCheck true false [] []) (mkConfigurationCheck [] [])
      (mkPermissionCheck true true true false)).passed = false ∧
    ¬ (scanAggregate (mkCodeAnalysis [("eval()函数 在 server.js")] [] [])
      (mkDependencyCheck true false [] []) (mkConfigurationCheck [] [])
      (mkPermissionCheck true true true false)).score ≤ 85 := by
  decide

/-- **C6 (amended).** Whenever code analysis reports at least one dangerous
finding (e.g. a direct code-execution call such as eval), the aggregated
scan has `codeAnalysis.passed = false`, overall `passed = false`, and —
whatever the other category results are — a score of at most 90 (the
dangerous finding deducts at least 10 and no other category can add
points). -/
theorem dangerous_finding_fails_scan (dang susp mal : List String)
    (d : DependencyCheckResult) (cf : ConfigurationCheckResult) (p : PermissionCheckResult)
    (h : dang ≠ []) :
    (scanAggregate (mkCodeAnalysis dang susp mal) d cf p).details.codeAnalysis.passed = false ∧
    (scanAggregate (mkCodeAnalysis dang susp mal) d cf p).passed = false ∧
    (scanAggregate (mkCodeAnalysis dang susp mal) d cf p).score ≤ 90 := by
  obtain ⟨y, ys, rfl⟩ : ∃ y ys, dang = y :: ys := by
    cases dang with
    | nil => exact absurd rfl h
    | cons y ys => exact ⟨y, ys, rfl⟩
  refine ⟨?_, ?_, ?_⟩
  · simp [scanAggregate, mkCodeAnalysis]
  · simp [scanAggregate, mkCodeAnalysis]
  · have h10 := codeDeduction_ge_ten (y :: ys) susp mal (by simp)
    have hd := depDeduction_nonneg d
    have hcf := confDeduction_nonneg cf
    have hp := permDeduction_nonneg p
    have hsc : (scanAggregate (mkCodeAnalysis (y :: ys) susp mal) d cf p).score =
        calculateSecurityScore (mkCodeAnalysis (y :: ys) susp mal) d cf p := by
      simp [scanAggregate]
    rw [hsc, calculateSecurityScore_eq]
    omega

/-- Witness for C6 (amended): a single dangerous finding with every other
category clean yields a failed scan with score 90 ≤ 90. -/
theorem dangerous_finding_fails_scan_witness :
    (scanAggregate (mkCodeAnalysis [("eval()函数 在 srv.js")] [] [])
      (mkDependencyCheck true false [] []) (mkConfigurationCheck [] [])
      (mkPermissionCheck true true false false)).details.codeAnalysis.passed = false ∧
    (scanAggregate (mkCodeAnalysis [("eval()函数 在 srv.js")] [] [])
      (mkDependencyCheck true false [] []) (mkConfigurationCheck [] [])
      (mkPermissionCheck true true false false)).passed = false ∧
    (scanAggregate (mkCodeAnalysis [("eval()函数 在 srv.js")] [] [])
      (mkDependencyCheck true false [] []) (mkConfigurationCheck [] [])
      (mkPermissionCheck true true false false)).score ≤ 90 :=
  dangerous_finding_fails_scan [("eval()函数 在 srv.js")] [] []
    (mkDependencyCheck true false [] []) (mkConfigurationCheck [] [])
    (mkPermissionCheck true true false false) (by decide)

/-! ## C8 — legitimate relative path exemption -/

/-- `startsL` characterisation: `p` is a prefix iff `s` decomposes as
`p ++ t`. -/
theorem startsL_iff (p : List Char) : ∀ s, startsL p s = true ↔ ∃ t, s = p ++ t := by
  induction p with
  | nil => intro s; simp [startsL]
  | cons c cs ih =>
    intro s
    cases s with
    | nil => simp [startsL]
    | cons b bs =>
      simp only [startsL, Bool.and_eq_true, beq_iff_eq, ih bs, List.cons_append]
      constructor
      · rintro ⟨rfl, t, rfl⟩; exact ⟨t, rfl⟩
      · rintro ⟨t, h⟩
        injection h with h1 h2
        exact ⟨h1.symm, t, h2⟩

/-- A prefix occurrence is a substring occurrence. -/
theorem substrL_of_startsL (p s : List Char) (h : startsL p s = true) :
    substrL p s = true := by
  cases s with
  | nil => simpa [substrL] using h
  | cons c cs => simp [substrL, h]

/-- Prefix is transitive. -/
theorem startsL_trans (q p s : List Char) (h1 : startsL q p = true)
    (h2 : startsL p s = true) : startsL q s = true := by
  obtain ⟨t1, rfl⟩ := (startsL_iff q p).mp h1
  obtain ⟨t2, rfl⟩ := (startsL_iff (q ++ t1) _).mp h2
  exact (startsL_iff q _).mpr ⟨t1 ++ t2, by simp⟩

/-- A substring occurrence of `p` yields one of any prefix `q` of `p`. -/
theorem substrL_mono (q p : List Char) (hq : startsL q p = true) :
    ∀ s, substrL p s = true → substrL q s = true := by
  intro s
  induction s with
  | nil =>
    intro h
    simp only [substrL] at h ⊢
    exact startsL_trans q p [] hq h
  | cons c cs ih =>
    intro h
    simp only [substrL, Bool.or_eq_true] at h ⊢
    rcases h with h | h
    · exact Or.inl (startsL_trans q p (c :: cs) hq h)
    · exact Or.inr (ih h)

/-- If `ch` occurs nowhere in `s`, `splitAtChar` finds nothing. -/
theorem splitAtChar_none (ch : Char) (s : List Char)
    (h : ∀ c ∈ s, (c == ch) = false) : splitAtChar ch s = none := by
  induction s with
  | nil => rfl
  | cons c cs ih =>
    simp only [splitAtChar, h c (List.mem_cons_self c cs)]
    rw [ih (fun b hb => h b (List.mem_cons_of_mem c hb))]
    rfl

/-- Path characters are not colons. -/
theorem pathChar_ne_colon (c : Char) (h : pathChar c = true) : (c == ':') = false := by
  cases hc : (c == ':')
  · rfl
  · rw [beq_iff_eq] at hc
    subst hc
    exact absurd h (by decide)

/-- Path characters are not equal signs. -/
theorem pathChar_ne_eq (c : Char) (h : pathChar c = true) : (c == '=') = false := by
  cases hc : (c == '=')
  · rfl
  · rw [beq_iff_eq] at hc
    subst hc
    exact absurd h (by decide)

/-- `matchAfter` characterisation. -/
theorem matchAfter_iff (anchor s : List Char) :
    matchAfter anchor s = true ↔
      ∃ t, s = anchor ++ t ∧ t ≠ [] ∧ t.all pathChar = true := by
  simp only [matchAfter, Bool.and_eq_true, startsL_iff]
  constructor
  · rintro ⟨⟨⟨t, rfl⟩, hne⟩, hall⟩
    rw [List.drop_left] at hne hall
    refine ⟨t, rfl, ?_, hall⟩
    simpa [List.isEmpty_iff] using hne
  · rintro ⟨t, rfl, hne, hall⟩
    refine ⟨⟨⟨t, rfl⟩, ?_⟩, ?_⟩ <;> rw [List.drop_left]
    · simpa [List.isEmpty_iff] using hne
    · exact hall

/-- An argument of the single-level `../path` shape is not recognised as a
safe docker-style parameter: it is too long for a short flag, starts with
`.` rather than `-`, `g`, `d` or an upper-case letter, and contains neither
`:` nor `=`. -/
theorem isDockerParameter_of_dotdot (arg : String) (h : matchDotDotSlash arg = true) :
    isDockerParameter arg = false := by
  obtain ⟨t, hs, hne, hall⟩ := (matchAfter_iff _ _).mp h
  obtain ⟨r, rs, rfl⟩ : ∃ r rs, t = r :: rs := by
    cases t with
    | nil => exact absurd rfl hne
    | cons r rs => exact ⟨r, rs, rfl⟩
  have hs2 : arg.toList = '.' :: '.' :: '/' :: r :: rs := by rw [hs]; rfl
  have hall2 : ∀ c ∈ r :: rs, pathChar c = true := by
    intro c hc
    exact List.all_eq_true.mp hall c hc
  have hcolon : splitAtChar ':' ('.' :: '.' :: '/' :: r :: rs) = none := by
    apply splitAtChar_none
    intro c hc
    simp only [List.mem_cons] at hc
    rcases hc with rfl | rfl | rfl | rfl | hc
    · rfl
    · rfl
    · rfl
    · exact pathChar_ne_colon c (hall2 c (List.mem_cons_self c rs))
    · exact pathChar_ne_colon c (hall2 c (List.mem_cons_of_mem r hc))
  have heqc : splitAtChar '=' ('.' :: '.' :: '/' :: r :: rs) = none := by
    apply splitAtChar_none
    intro c hc
    simp only [List.mem_cons] at hc
    rcases hc with rfl | rfl | rfl | rfl | hc
    · rfl
    · rfl
    · rfl
    · exact pathChar_ne_eq c (hall2 c (List.mem_cons_self c rs))
    · exact pathChar_ne_eq c (hall2 c (List.mem_cons_of_mem r hc))
  simp only [isDockerParameter, startsWithStr, imageRefParam, envAssignParam,
    hcolon, heqc, hs2]
  rfl

/-- **C8 counterexample.** `../data` matches the recognised legitimate
relative path shape (so the claim asserts no dangerous-content error for
it), yet validating a server whose `args` is `["../data"]` reports exactly
the dangerous-content error for that element: the `../` dangerous pattern
fires and no safe-parameter shape exempts it. -/
theorem legit_relative_path_flagged_dangerous :
    isLegitimateRelativePath ("../data") = true ∧
    validateServerConfig ("srv") { command := ("node"), args := [("../data")] } false =
      [dangerContentMsg ("srv") 0] := by
  constructor
  · decide
  · decide

/-- **C8 (amended).** For every `args` element: (1) if it matches the
recognised legitimate relative path shape, validation reports no
path-traversal error for it — the only error it can receive is the
dangerous-content one; (2) an element of the single-level `../path` shape
(that is not multi-level) always receives exactly the dangerous-content
error, since it contains `../` and no safe-parameter shape covers it; and
(3) an element containing multi-level traversal from either anchor
(`../../` or `~/../`) is always rejected with a path-traversal error. -/
theorem relative_path_arg_validation (name : String) (i : Nat) (arg : String) :
    (isLegitimateRelativePath arg = true →
      argErrors name i arg =
        (if containsDangerousContent arg && !isDockerParameter arg then
          [dangerContentMsg name i]
        else [])) ∧
    (matchDotDotSlash arg = true → isLegitimateRelativePath arg = true →
      argErrors name i arg = [dangerContentMsg name i]) ∧
    ((substrOf ("../../") arg = true ∨ substrOf ("~/../") arg = true) →
      pathTraversalMsg name i ∈ argErrors name i arg) := by
  refine ⟨fun h => ?_, fun hm h => ?_, fun h => ?_⟩
  · simp [argErrors, h]
  · have hstart : startsL (("../").toList) arg.toList = true :=
      ((matchAfter_iff _ _).mp hm).elim (fun t ht => (startsL_iff _ _).mpr ⟨t, ht.1⟩)
    have hsub : substrOf ("../") arg = true :=
      substrL_of_startsL _ _ hstart
    have hdc : containsDangerousContent arg = true := by
      simp [containsDangerousContent, hsub]
    have hdp : isDockerParameter arg = false := isDockerParameter_of_dotdot arg hm
    simp [argErrors, h, hdc, hdp]
  · have hlegit : isLegitimateRelativePath arg = false := by
      rcases h with h | h <;> simp [isLegitimateRelativePath, h]
    have hdots : substrOf ("..") arg = true ∨ substrOf ("~") arg = true := by
      rcases h with h | h
      · exact Or.inl (substrL_mono _ _ (by decide) _ h)
      · exact Or.inr (substrL_mono _ _ (by decide) _ h)
    have hcond : (substrOf ("..") arg || substrOf ("~") arg) = true := by
      rcases hdots with h2 | h2 <;> simp [h2]
    simp [argErrors, hlegit, hcond]

/-- Witness for C8 (amended): the single-level `../data` element gets
exactly the dangerous-content error, and the multi-level `../../x` element
gets the path-traversal error. -/
theorem relative_path_arg_validation_witness :
    argErrors ("s") 0 ("../data") = [dangerContentMsg ("s") 0] ∧
    pathTraversalMsg ("s") 1 ∈ argErrors ("s") 1 ("../../x") :=
  ⟨(relative_path_arg_validation ("s") 0 ("../data")).2.1 (by decide) (by decide),
   (relative_path_arg_validation ("s") 1 ("../../x")).2.2 (Or.inl (by decide))⟩

/-! ## C9 / C10 — restore safety -/

/-- Backup directory at the retention cap (`maxBackups = 2`, two backup
files); the oldest backup, `mcp-config-backup-1.json`, is the restore
target of the C9 failing input. -/
def capState : FsState :=
  { registry := some [(("a"), { command := ("node"), args := [] })]
    backups := [{ mtime := 2, filename := ("mcp-config-backup-2.json"), content := [] },
                { mtime := 1, filename := ("mcp-config-backup-1.json")
                  content := [(("b"), { command := ("node"), args := [] })] }]
    clock := 5
    backupEnabled := true
    maxBackups := 2
    faultBackup := false }

/-- **C9 (code bug).** Evaluating the code at the failing input: with the
backup directory at the retention cap, the named (oldest) backup exists
when `restoreFromBackup` is called, yet the restore fails and the registry
is untouched — the mandatory pre-restore `createBackup` runs
`cleanupOldBackups`, which evicts that very backup file, so the subsequent
copy of it fails; the backup being restored has been destroyed, as the
final conjunct shows. -/
theorem restore_oldest_at_cap_fails :
    capState.backups.find?
        (fun b => b.filename == ("mcp-config-backup-1.json")) =
      some { mtime := 1, filename := ("mcp-config-backup-1.json")
             content := [(("b"), { command := ("node"), args := [] })] } ∧
    (restoreFromBackup ("mcp-config-backup-1.json") capState).1 = false ∧
    ((restoreFromBackup ("mcp-config-backup-1.json") capState).2).registry =
      some [(("a"), { command := ("node"), args := [] })] ∧
    ((restoreFromBackup ("mcp-config-backup-1.json") capState).2).backups.find?
        (fun b => b.filename == ("mcp-config-backup-1.json")) = none := by
  decide

/-- Concrete state underlying the C10 witness: a one-entry registry and
one existing backup holding an empty document. -/
def restoreState : FsState :=
  { registry := some [(("a"), { command := ("node"), args := [] })]
    backups := [{ mtime := 1, filename := ("mcp-config-backup-1.json"), content := [] }]
    clock := 5
    backupEnabled := true
    maxBackups := 10
    faultBackup := false }

/-- **C10.** When the live registry file does not exist,
`restoreFromBackup` always fails — the mandatory pre-restore `createBackup`
throws because it requires the registry file — even when the named backup
exists; the registry stays absent, so a missing registry can never be
recovered through restore. -/
theorem restore_needs_live_registry (s : FsState) (nm : String) (b : BackupFile)
    (hreg : s.registry = none)
    (hfind : s.backups.find? (fun x => x.filename == nm) = some b) :
    (restoreFromBackup nm s).1 = false ∧
    ((restoreFromBackup nm s).2).registry = none := by
  simp [restoreFromBackup, hfind, createBackup, hreg]

/-- Witness for C10: with the registry file absent and the named backup
present, restore fails and the registry stays absent. -/
theorem restore_needs_live_registry_witness :
    (restoreFromBackup ("mcp-config-backup-1.json")
      { restoreState with registry := none }).1 = false ∧
    ((restoreFromBackup ("mcp-config-backup-1.json")
      { restoreState with registry := none }).2).registry = none :=
  restore_needs_live_registry { restoreState with registry := none }
    ("mcp-config-backup-1.json")
    { mtime := 1, filename := ("mcp-config-backup-1.json"), content := [] } rfl (by decide)

/-! ## C2 — conflict protection -/

/-- After an in-place update, the first binding found for `n` is the new
one. -/
theorem find?_map_set (r : Registry) (n : String) (cfg : MCPServerConfig)
    (h : r.any (fun p => p.1 == n) = true) :
    (r.map (fun p => if p.1 == n then (n, cfg) else p)).find? (fun p => p.1 == n) =
      some (n, cfg) := by
  induction r with
  | nil => simp at h
  | cons q qs ih =>
    cases hq : (q.1 == n) with
    | true =>
      rw [List.map_cons, if_pos hq]
      exact List.find?_cons_of_pos _ (by simp)
    | false =>
      have h2 : qs.any (fun p => p.1 == n) = true := by
        rw [List.any_cons, hq, Bool.false_or] at h
        exact h
      rw [List.map_cons, if_neg (by simp [hq]), List.find?_cons_of_neg _ (by simp [hq]),
        ih h2]

/-- Appending the new binding to a registry with no binding for `n` makes
it the first one found. -/
theorem find?_append_new (r : Registry) (n : String) (cfg : MCPServerConfig)
    (h : r.any (fun p => p.1 == n) = false) :
    (r ++ [(n, cfg)]).find? (fun p => p.1 == n) = some (n, cfg) := by
  induction r with
  | nil => simp
  | cons q qs ih =>
    simp only [List.any_cons, Bool.or_eq_false_iff] at h
    rw [List.cons_append, List.find?_cons_of_neg _ (by simp [h.1]), ih h.2]

/-- `setServer` always leaves the new configuration as the binding that a
lookup for `n` finds. -/
theorem getServer_setServer (r : Registry) (n : String) (cfg : MCPServerConfig) :
    getServer (setServer r n cfg) n = some cfg := by
  cases h : r.any (fun p => p.1 == n) with
  | true =>
    unfold getServer setServer
    rw [if_pos h, find?_map_set r n cfg h]
    rfl
  | false =>
    unfold getServer setServer
    rw [if_neg (by simp [h]), find?_append_new r n cfg h]
    rfl

/-- The in-place update preserves the number of bindings for `n`. -/
theorem countName_map_set (r : Registry) (n : String) (cfg : MCPServerConfig) :
    countName (r.map (fun p => if p.1 == n then (n, cfg) else p)) n = countName r n := by
  unfold countName
  induction r with
  | nil => rfl
  | cons q qs ih =>
    cases hq : (q.1 == n) with
    | true =>
      rw [List.map_cons, if_pos hq]
      simp only [List.filter_cons, beq_self_eq_true, hq, eq_self_iff_true, if_true,
        List.length_cons]
      rw [ih]
    | false =>
      rw [List.map_cons, if_neg (by simp [hq])]
      simp only [List.filter_cons, hq, Bool.false_eq_true, if_false]
      exact ih

/-- A registry whose keys contain no `n` has no binding for `n`. -/
theorem countName_eq_zero (r : Registry) (n : String)
    (h : ∀ p ∈ r, (p.1 == n) = false) : countName r n = 0 := by
  unfold countName
  rw [List.filter_eq_nil_iff.mpr (fun p hp => by simp [h p hp])]
  rfl

/-- With duplicate-free keys there is at most one binding per name. -/
theorem countName_le_one (r : Registry) (n : String)
    (h : (r.map Prod.fst).Nodup) : countName r n ≤ 1 := by
  induction r with
  | nil => exact Nat.zero_le 1
  | cons q qs ih =>
    rw [List.map_cons, List.nodup_cons] at h
    cases hq : (q.1 == n) with
    | true =>
      have hz : countName qs n = 0 := by
        apply countName_eq_zero
        intro p hp
        cases hpq : (p.1 == n) with
        | false => rfl
        | true =>
          exfalso
          rw [beq_iff_eq] at hq hpq
          exact h.1 (by rw [hq, ← hpq]; exact List.mem_map_of_mem Prod.fst hp)
      unfold countName at hz ⊢
      simp only [List.filter_cons, hq, eq_self_iff_true, if_true, List.length_cons, hz]
      omega
    | false =>
      unfold countName at ih ⊢
      simp only [List.filter_cons, hq, Bool.false_eq_true, if_false]
      exact ih h.2

/-- A successful lookup means at least one binding. -/
theorem countName_pos (r : Registry) (n : String)
    (h : (getServer r n).isSome = true) : 1 ≤ countName r n := by
  unfold getServer at h
  cases hfind : r.find? (fun p => p.1 == n) with
  | none => rw [hfind] at h; simp at h
  | some q =>
    have hmem : q ∈ r := List.mem_of_find?_eq_some hfind
    have hq := List.find?_some hfind
    unfold countName
    have hqf : q ∈ r.filter (fun p => p.1 == n) := List.mem_filter.mpr ⟨hmem, hq⟩
    exact List.length_pos.mpr (List.ne_nil_of_mem hqf)

/-- **C2.** Conflict protection.  With the registry holding an entry named
`nm`: deploying `nm` without `force` through `addServer` returns exactly
the conflict rejection (whose errors report the name conflict and whose
warnings give the remove-first / force-override remediation) and leaves the
state untouched; deploying without `force` through `addServerWithProtection`
also fails and leaves the registry document unchanged; deploying with
`force = true` (with backup I/O healthy, backups enabled and the updated
document passing validation) succeeds and the registry becomes the updated
document; and on well-formed documents (duplicate-free keys) that updated
document holds exactly one entry named `nm`, carrying the new
configuration. -/
theorem conflict_protection (s : FsState) (r : Registry) (nm : String)
    (cfg : MCPServerConfig) (hreg : s.registry = some r)
    (hex : (getServer r nm).isSome = true) :
    (addServer nm cfg false s = (conflictResult nm, s)) ∧
    (∀ scan pol skipv,
      ((addServerWithProtection nm cfg scan pol false skipv s).1).success = false ∧
      ((addServerWithProtection nm cfg scan pol false skipv s).2).registry = some r) ∧
    (s.faultBackup = false → s.backupEnabled = true →
      (validateConfig (setServer r nm cfg) false).valid = true →
      ((addServer nm cfg true s).1).success = true ∧
      ((addServer nm cfg true s).2).registry = some (setServer r nm cfg)) ∧
    ((r.map Prod.fst).Nodup →
      countName (setServer r nm cfg) nm = 1 ∧
      getServer (setServer r nm cfg) nm = some cfg) := by
  refine ⟨?_, ?_, ?_, ?_⟩
  · simp [addServer, readConfig, hreg, hex]
  · intro scan pol skipv
    cases hfb : s.faultBackup with
    | true =>
      constructor <;>
        simp [addServerWithProtection, readConfig, hreg, createBackup, hfb, hex]
    | false =>
      constructor <;>
        simp [addServerWithProtection, readConfig, hreg, createBackup, hfb, hex]
  · intro hf hbe hval
    constructor <;>
      simp [addServer, readConfig, hreg, hex, createBackup, hf, hbe, writeConfig, hval,
        Except.map]
  · intro hnd
    have hany : r.any (fun p => p.1 == nm) = true := by
      unfold getServer at hex
      cases hfind : r.find? (fun p => p.1 == nm) with
      | none => rw [hfind] at hex; simp at hex
      | some q =>
        have hq := List.find?_some hfind
        exact List.any_eq_true.mpr ⟨q, List.mem_of_find?_eq_some hfind, hq⟩
    have h1 : countName (setServer r nm cfg) nm = countName r nm := by
      unfold setServer
      rw [if_pos hany]
      exact countName_map_set r nm cfg
    have h2 : countName r nm ≤ 1 := countName_le_one r nm hnd
    have h3 : 1 ≤ countName r nm := countName_pos r nm hex
    exact ⟨by omega, getServer_setServer r nm cfg⟩

/-- Registry held by the witness state for C2: one entry named `a`. -/
def witnessOldCfg : MCPServerConfig := { command := ("node"), args := [] }

/-- Replacement configuration used by the C2 witness. -/
def witnessNewCfg : MCPServerConfig := { command := ("node"), args := [("--port")] }

/-- Witness state for C2. -/
def deployState : FsState :=
  { registry := some [(("a"), witnessOldCfg)]
    backups := []
    clock := 0
    backupEnabled := true
    maxBackups := 10
    faultBackup := false }

/-- Witness for C2: deploying the existing name without force yields the
conflict rejection with the state unchanged; with force it succeeds; the
updated document has exactly one entry for the name. -/
theorem conflict_protection_witness :
    addServer ("a") witnessNewCfg false deployState = (conflictResult ("a"), deployState) ∧
    ((addServer ("a") witnessNewCfg true deployState).1).success = true ∧
    countName (setServer [(("a"), witnessOldCfg)] ("a") witnessNewCfg) ("a") = 1 :=
  ⟨(conflict_protection deployState [(("a"), witnessOldCfg)] ("a") witnessNewCfg rfl
      (by decide)).1,
   ((conflict_protection deployState [(("a"), witnessOldCfg)] ("a") witnessNewCfg rfl
      (by decide)).2.2.1 rfl rfl (by decide)).1,
   ((conflict_protection deployState [(("a"), witnessOldCfg)] ("a") witnessNewCfg rfl
      (by decide)).2.2.2 (by decide)).1⟩

/-! ## C1 — backup before mutate -/

/-- The write/verify phase never touches the backup directory. -/
theorem addServerProtected_backups (nm : String) (cfg : MCPServerConfig)
    (force isOv skipv : Bool) (s : FsState) :
    ((addServerProtected nm cfg force isOv skipv s).2).backups = s.backups := by
  rcases s with ⟨reg, bks, clk, be, mb, fb⟩
  cases reg with
  | none =>
    by_cases hv : (!(validateConfig (setServer [] nm cfg) skipv).valid && !skipv) = true
    · simp [addServerProtected, readConfig, writeConfig, hv]
    · simp [addServerProtected, readConfig, writeConfig, hv, apply_ite]
  | some r0 =>
    by_cases hv : (!(validateConfig (setServer r0 nm cfg) skipv).valid && !skipv) = true
    · simp [addServerProtected, readConfig, writeConfig, hv]
    · simp [addServerProtected, readConfig, writeConfig, hv, apply_ite]

/-- A successful `writeConfig` only replaces the registry document. -/
theorem writeConfig_ok_state (s : FsState) (cfg : Registry) (sk : Bool) (s2 : FsState)
    (h : writeConfig s cfg sk = Except.ok s2) :
    s2.backups = s.backups ∧ s2.registry = some cfg := by
  unfold writeConfig at h
  split_ifs at h
  all_goals
    first
    | exact Except.noConfusion h
    | (injection h with h2
       subst h2
       exact ⟨rfl, rfl⟩)

/-- **C1 (amended).** Backup-before-mutate, as the code implements it, for a
state whose registry file holds `r`.  (1) `addServerWithProtection` backs up
unconditionally and first: whatever the outcome, the backup directory ends
up headed by a fresh snapshot of `r` timestamped at the call start (subject
to the retention cap), and that snapshot is reported as `backupInfo`;
(2) if the backup copy fails, the protected deployment aborts with a
failure result and no mutation — registry and backups are untouched;
(3) `addServer` creates the same fresh snapshot before writing whenever
backups are enabled and the call gets past the conflict check (a
conflict-rejected `addServer` returns before the backup step — see the
counterexample); (4) `removeServer` (backups enabled) snapshots first on
every path; (5) a restore whose named backup exists snapshots the current
registry before overwriting it. -/
theorem backup_before_mutate (s : FsState) (r : Registry) (hreg : s.registry = some r) :
    (∀ nm cfg scan pol force skipv, s.faultBackup = false →
      ((addServerWithProtection nm cfg scan pol force skipv s).2).backups =
        (freshBackup s r :: s.backups).take s.maxBackups ∧
      ((addServerWithProtection nm cfg scan pol force skipv s).1).backupInfo =
        some (freshBackup s r)) ∧
    (∀ nm cfg scan pol force skipv, s.faultBackup = true →
      ((addServerWithProtection nm cfg scan pol force skipv s).1).success = false ∧
      ((addServerWithProtection nm cfg scan pol force skipv s).1).message =
        ("创建配置备份失败，为保护现有配置拒绝部署") ∧
      ((addServerWithProtection nm cfg scan pol force skipv s).2).registry = some r ∧
      ((addServerWithProtection nm cfg scan pol force skipv s).2).backups = s.backups) ∧
    (∀ nm cfg force, s.faultBackup = false → s.backupEnabled = true →
      ((getServer r nm).isSome && !force) = false →
      ((addServer nm cfg force s).2).backups =
        (freshBackup s r :: s.backups).take s.maxBackups) ∧
    (∀ nm, s.faultBackup = false → s.backupEnabled = true →
      ((removeServer nm s).2).backups =
        (freshBackup s r :: s.backups).take s.maxBackups) ∧
    (∀ nm b, s.faultBackup = false →
      s.backups.find? (fun x => x.filename == nm) = some b →
      ((restoreFromBackup nm s).2).backups =
        (freshBackup s r :: s.backups).take s.maxBackups) := by
  refine ⟨?_, ?_, ?_, ?_, ?_⟩
  · intro nm cfg scan pol force skipv hf
    cases hex : ((getServer r nm).isSome && !force) with
    | true =>
      constructor <;>
        simp [addServerWithProtection, readConfig, hreg, createBackup, hf, hex]
    | false =>
      cases hg : (evaluateSecurityResult scan pol).success with
      | false =>
        constructor <;>
          simp [addServerWithProtection, readConfig, hreg, createBackup, hf, hex, hg]
      | true =>
        constructor <;>
          simp [addServerWithProtection, readConfig, hreg, createBackup, hf, hex, hg,
            addServerProtected_backups]
  · intro nm cfg scan pol force skipv hfb
    refine ⟨?_, ?_, ?_, ?_⟩ <;>
      simp [addServerWithProtection, readConfig, hreg, createBackup, hfb]
  · intro nm cfg force hf hbe hok
    cases hv : (validateConfig (setServer r nm cfg) false).valid <;>
      simp [addServer, readConfig, hreg, createBackup, hf, hbe, hok, writeConfig, hv,
        Except.map]
  · intro nm hf hbe
    cases hex : (getServer r nm).isNone with
    | true => simp [removeServer, readConfig, hreg, createBackup, hf, hbe, hex, Except.map]
    | false =>
      cases hv : (validateConfig (removeEntry r nm) false).valid <;>
        simp [removeServer, readConfig, hreg, createBackup, hf, hbe, hex, writeConfig, hv,
          Except.map]
  · intro nm b hf hfind
    cases hfind2 : ((freshBackup s r :: s.backups).take s.maxBackups).find?
        (fun x => x.filename == nm) with
    | none => simp [restoreFromBackup, hfind, createBackup, hreg, hf, hfind2]
    | some b2 => simp [restoreFromBackup, hfind, createBackup, hreg, hf, hfind2]

/-- **C1 counterexample.** The claim says every rejected deploy still
creates a new backup when the registry file existed.  A conflict-rejected
`addServer` (existing name, no force) returns before the backup step: on a
state with one registry entry and an empty backup directory, the call is
rejected and the backup directory is still empty. -/
theorem rejected_deploy_creates_no_backup :
    ((addServer ("a") witnessNewCfg false deployState).1).success = false ∧
    ((addServer ("a") witnessNewCfg false deployState).2).backups = [] := by
  decide

/-- Witness for C1 (amended): on the concrete one-entry state, a protected
deployment of a fresh name leaves the fresh snapshot of the old registry at
the head of the backup directory, and so does a remove call. -/
theorem backup_before_mutate_witness :
    ((addServerWithProtection ("b") witnessNewCfg scanPassing90 strictPolicy90 false false
        deployState).2).backups =
      (freshBackup deployState [(("a"), witnessOldCfg)] :: deployState.backups).take
        deployState.maxBackups ∧
    ((removeServer ("a") deployState).2).backups =
      (freshBackup deployState [(("a"), witnessOldCfg)] :: deployState.backups).take
        deployState.maxBackups :=
  ⟨((backup_before_mutate deployState [(("a"), witnessOldCfg)] rfl).1 ("b") witnessNewCfg
      scanPassing90 strictPolicy90 false false rfl).1,
   (backup_before_mutate deployState [(("a"), witnessOldCfg)] rfl).2.2.2.1 ("a") rfl rfl⟩
